import Mathlib

/-!
Verification of the oci-spec-rs data-model/serialization core.

The Rust source uses serde-derived JSON codecs and derive_builder-generated
builders. We shallow-embed:
  * JSON values as an inductive `Json` (serde_json's value layer);
  * each entity struct as a Lean structure with the source's field names;
  * each serde-derived `Serialize` as `toJson` (declaration field order,
    `skip_serializing_if = "Option::is_none"` fields omitted when absent);
  * each serde-derived `Deserialize` as `fromJson` (required field missing
    is an error naming the wire field, `#[serde(default)]` fills the type's
    default, an `Option` field absent or null parses to `none`, unknown
    fields are ignored);
  * each derive_builder builder as a structure of `Option`-wrapped fields
    with a `build` function (struct-level `builder(default)` pulls unset
    fields from the struct's `Default`; otherwise an unset field without a
    field default is an uninitialized-field error).
Machine integers (u32/i64/u64) are modelled as Nat/Int with explicit range
checks where the serde deserializer performs them; `PathBuf` is modelled as
`String`; `HashMap<String, String>` is modelled as an association list in
wire/iteration order.
-/

namespace OciSpec

/-- JSON values, as in serde_json's value layer. Object fields keep their
order; numbers are integers (all numeric fields in the modelled entities are
machine integers). -/
inductive Json where
  | null
  | bool (b : Bool)
  | num (n : Int)
  | str (s : String)
  | arr (elems : List Json)
  | obj (fields : List (String × Json))

/-- Is this JSON value null? -/
def Json.isNull : Json → Bool
  | .null => true
  | _ => false

@[simp]
theorem Json.isNull_bool (b : Bool) : (Json.bool b).isNull = false := rfl

@[simp]
theorem Json.isNull_num (n : Int) : (Json.num n).isNull = false := rfl

@[simp]
theorem Json.isNull_str (s : String) : (Json.str s).isNull = false := rfl

@[simp]
theorem Json.isNull_arr (l : List Json) : (Json.arr l).isNull = false := rfl

@[simp]
theorem Json.isNull_obj (l : List (String × Json)) : (Json.obj l).isNull = false := rfl

/-- Look a key up in a JSON object's field list (first occurrence). -/
def Json.lookup (fields : List (String × Json)) (key : String) : Option Json :=
  match fields with
  | [] => none
  | kv :: rest => if kv.1 = key then some kv.2 else Json.lookup rest key

/-- Left-biased choice on optional JSON values. -/
def optOr (a b : Option Json) : Option Json :=
  match a with
  | some v => some v
  | none => b

/-- The field-list fragment a `skip_serializing_if = "Option::is_none"` field
contributes to serialization: nothing when absent, one keyed entry when
present. -/
def optJField (name : String) (v : Option Json) : List (String × Json) :=
  match v with
  | some j => [(name, j)]
  | none => []

/-- Does the encoded JSON object contain the given key? -/
def Json.hasKey (j : Json) (key : String) : Bool :=
  match j with
  | .obj fields => fields.any (fun kv => kv.1 == key)
  | _ => false

/-- serde: deserializing a struct requires a JSON object. -/
def Json.getObj : Json → Except String (List (String × Json))
  | .obj fields => .ok fields
  | _ => .error "invalid type: expected object"

/-- serde: a missing required (non-defaulted) struct field is an error naming
the wire field name. -/
def reqField (fields : List (String × Json)) (name : String) : Except String Json :=
  match Json.lookup fields name with
  | some v => .ok v
  | none => .error ("missing field " ++ name)

/-- serde: deserialize a `String`/`PathBuf` value. -/
def decodeString : Json → Except String String
  | .str s => .ok s
  | _ => .error "invalid type: expected string"

/-- serde: deserialize a `bool` value. -/
def decodeBool : Json → Except String Bool
  | .bool b => .ok b
  | _ => .error "invalid type: expected boolean"

/-- serde: deserialize an `i64` value (range-checked). -/
def decodeI64 : Json → Except String Int
  | .num n =>
      if -(2 ^ 63) ≤ n ∧ n < 2 ^ 63 then .ok n
      else .error "invalid value: integer out of range for i64"
  | _ => .error "invalid type: expected integer"

/-- serde: deserialize a `u32` value (range-checked; the machine integer is
modelled as a range-restricted `Int`). -/
def decodeU32 : Json → Except String Int
  | .num n =>
      if 0 ≤ n ∧ n < 2 ^ 32 then .ok n
      else .error "invalid value: integer out of range for u32"
  | _ => .error "invalid type: expected integer"

/-- serde: deserialize a `u64` value (range-checked; the machine integer is
modelled as a range-restricted `Int`). -/
def decodeU64 : Json → Except String Int
  | .num n =>
      if 0 ≤ n ∧ n < 2 ^ 64 then .ok n
      else .error "invalid value: integer out of range for u64"
  | _ => .error "invalid type: expected integer"

/-- serde: a `#[serde(default)]` field of a non-`Option` type parses to the
type's default value when absent from the input. -/
def decodeWithDefault (dec : Json → Except String α) (d : α) : Option Json → Except String α
  | some v => dec v
  | none => .ok d

/-- serde: an `Option<T>` struct field that is absent from the input, or
bound to JSON null, parses to `None`; otherwise its value is deserialized. -/
def optDecode (dec : Json → Except String α) : Option Json → Except String (Option α)
  | none => .ok none
  | some v => if v.isNull then .ok none else Except.map some (dec v)

/-- Deserialize every element of a JSON array. -/
def decodeElems (dec : Json → Except String α) : List Json → Except String (List α)
  | [] => .ok []
  | j :: rest => do
      let a ← dec j
      let as ← decodeElems dec rest
      .ok (a :: as)

/-- serde: deserialize a `Vec<T>` value. -/
def decodeList (dec : Json → Except String α) : Json → Except String (List α)
  | .arr elems => decodeElems dec elems
  | _ => .error "invalid type: expected array"

/-- serde: deserialize a `Vec<String>` value. -/
def decodeStringList : Json → Except String (List String) :=
  decodeList decodeString

/-- Serialize a `Vec<String>` value. -/
def strListToJson (l : List String) : Json :=
  .arr (l.map Json.str)

/-- Deserialize every entry of a string-to-string map object. -/
def decodeMapEntries : List (String × Json) → Except String (List (String × String))
  | [] => .ok []
  | kv :: rest => do
      let v ← decodeString kv.2
      let vs ← decodeMapEntries rest
      .ok ((kv.1, v) :: vs)

/-- serde: deserialize a `HashMap<String, String>` value (entries kept in
wire order). -/
def decodeStringMap : Json → Except String (List (String × String))
  | .obj fields => decodeMapEntries fields
  | _ => .error "invalid type: expected map"

/-- Serialize a `HashMap<String, String>` value (iteration order modelled as
the stored order). -/
def strMapToJson (m : List (String × String)) : Json :=
  .obj (m.map (fun kv => (kv.1, Json.str kv.2)))

/-! ### Basic reduction lemmas for the decoding combinators -/

@[simp]
theorem json_lookup_nil (key : String) : Json.lookup [] key = none := rfl

@[simp]
theorem json_lookup_cons (kv : String × Json) (rest : List (String × Json)) (key : String) :
    Json.lookup (kv :: rest) key = if kv.1 = key then some kv.2 else Json.lookup rest key := by
  rw [Json.lookup]

@[simp]
theorem json_lookup_append (l1 l2 : List (String × Json)) (key : String) :
    Json.lookup (l1 ++ l2) key = optOr (Json.lookup l1 key) (Json.lookup l2 key) := by
  induction l1 with
  | nil => simp [optOr]
  | cons kv rest ih =>
      by_cases h : kv.1 = key
      · simp [h, optOr]
      · simp [h, ih]

@[simp]
theorem optOr_none_left (b : Option Json) : optOr none b = b := rfl

@[simp]
theorem optOr_some_left (v : Json) (b : Option Json) : optOr (some v) b = some v := rfl

@[simp]
theorem optOr_none_right (a : Option Json) : optOr a none = a := by
  cases a <;> rfl

@[simp]
theorem lookup_optJField_self (k : String) (v : Option Json) :
    Json.lookup (optJField k v) k = v := by
  cases v <;> simp [optJField]

@[simp]
theorem lookup_optJField_ne (k key : String) (v : Option Json) (h : ¬k = key) :
    Json.lookup (optJField k v) key = none := by
  cases v <;> simp [optJField, h]

@[simp]
theorem except_bind_ok (a : α) (f : α → Except String β) :
    (Except.ok a : Except String α) >>= f = f a := rfl

@[simp]
theorem except_bind_error (e : String) (f : α → Except String β) :
    (Except.error e : Except String α) >>= f = Except.error e := rfl

@[simp]
theorem except_pure_eq (a : α) : (pure a : Except String α) = Except.ok a := rfl

@[simp]
theorem optDecode_none (dec : Json → Except String α) : optDecode dec none = .ok none := rfl

@[simp]
theorem optDecode_map_str (o : Option String) :
    optDecode decodeString (o.map Json.str) = .ok o := by
  cases o <;> rfl

@[simp]
theorem optDecode_map_bool (o : Option Bool) :
    optDecode decodeBool (o.map Json.bool) = .ok o := by
  cases o <;> rfl

theorem decodeElems_map (dec : Json → Except String α) (enc : α → Json) (l : List α)
    (h : ∀ a ∈ l, dec (enc a) = .ok a) :
    decodeElems dec (l.map enc) = .ok l := by
  induction l with
  | nil => rfl
  | cons a rest ih =>
      simp only [List.map_cons, decodeElems, h a (List.mem_cons_self a rest),
        ih (fun b hb => h b (List.mem_cons_of_mem a hb))]
      rfl

theorem decodeStringList_map (l : List String) :
    decodeStringList (strListToJson l) = .ok l := by
  simp [decodeStringList, strListToJson, decodeList, decodeElems_map decodeString Json.str l
    (fun a _ => rfl)]

@[simp]
theorem optDecode_map_strList (o : Option (List String)) :
    optDecode decodeStringList (o.map strListToJson) = .ok o := by
  cases o with
  | none => rfl
  | some l =>
      simp [optDecode, strListToJson, Json.isNull, decodeStringList, decodeList,
        decodeElems_map decodeString Json.str l (fun a _ => rfl), Except.map]

theorem decodeMapEntries_map (m : List (String × String)) :
    decodeMapEntries (m.map (fun kv => (kv.1, Json.str kv.2))) = .ok m := by
  induction m with
  | nil => rfl
  | cons kv rest ih =>
      simp only [List.map_cons, decodeMapEntries, decodeString, ih]
      rfl

theorem decodeStringMap_map (m : List (String × String)) :
    decodeStringMap (strMapToJson m) = .ok m := by
  simp [decodeStringMap, strMapToJson, decodeMapEntries_map]

@[simp]
theorem optDecode_map_strMap (o : Option (List (String × String))) :
    optDecode decodeStringMap (o.map strMapToJson) = .ok o := by
  cases o with
  | none => rfl
  | some m =>
      simp [optDecode, strMapToJson, Json.isNull, decodeStringMap, decodeMapEntries_map,
        Except.map]

/-! ## Runtime: `Root` and `Mount` (src/runtime/miscellaneous.rs) -/

/-- Root contains information about the container's root filesystem on the
host (`PathBuf` modelled as `String`). -/
structure Root where
  path : String
  readonly : Option Bool
deriving DecidableEq, Repr

/-- `impl Default for Root`: path "rootfs", readonly `Some(true)`. -/
def Root.default : Root :=
  { path := "rootfs", readonly := some true }

/-- serde `Serialize` for `Root`: field order `path`, `readonly`;
`readonly` omitted when `None`. -/
def Root.toJson (r : Root) : Json :=
  .obj ([("path", Json.str r.path)] ++ optJField "readonly" (r.readonly.map Json.bool))

/-- serde `Deserialize` for `Root`: `path` carries `#[serde(default)]`
(absent parses to `PathBuf::default()`, the empty path); `readonly` carries
`#[serde(default)]` and is an `Option` (absent parses to `None`). -/
def Root.fromJson (j : Json) : Except String Root := do
  let fields ← j.getObj
  let path ← decodeWithDefault decodeString "" (Json.lookup fields "path")
  let readonly ← optDecode decodeBool (Json.lookup fields "readonly")
  .ok { path := path, readonly := readonly }

/-- `RootBuilder` (derive_builder, owned, `strip_option`, struct-level
`builder(default)`: unset fields are taken from `Root::default()`). -/
structure RootBuilder where
  path : Option String
  readonly : Option (Option Bool)
deriving DecidableEq, Repr

/-- `RootBuilder::default()`: all fields unset. -/
def RootBuilder.default : RootBuilder :=
  { path := none, readonly := none }

/-- `RootBuilder::build`: never fails; unset fields come from
`Root::default()`. -/
def RootBuilder.build (b : RootBuilder) : Except String Root :=
  .ok { path := b.path.getD Root.default.path,
        readonly := b.readonly.getD Root.default.readonly }

/-- Mount specifies a mount for a container. -/
structure Mount where
  destination : String
  typ : Option String
  source : Option String
  options : Option (List String)
deriving DecidableEq, Repr

/-- derived `Default` for `Mount`: empty destination, all options absent. -/
def Mount.default : Mount :=
  { destination := "", typ := none, source := none, options := none }

/-- serde `Serialize` for `Mount`: declaration order `destination`, `type`
(the `typ` field is renamed on the wire), `source`, `options`; optional
fields omitted when `None`. -/
def Mount.toJson (m : Mount) : Json :=
  .obj ([("destination", Json.str m.destination)]
    ++ optJField "type" (m.typ.map Json.str)
    ++ optJField "source" (m.source.map Json.str)
    ++ optJField "options" (m.options.map strListToJson))

/-- serde `Deserialize` for `Mount`: `destination` is required; the other
three fields default to `None` when absent; unknown fields are ignored. -/
def Mount.fromJson (j : Json) : Except String Mount := do
  let fields ← j.getObj
  let destination ← reqField fields "destination" >>= decodeString
  let typ ← optDecode decodeString (Json.lookup fields "type")
  let source ← optDecode decodeString (Json.lookup fields "source")
  let options ← optDecode decodeStringList (Json.lookup fields "options")
  .ok { destination := destination, typ := typ, source := source, options := options }

/-- `MountBuilder` (derive_builder, struct-level `builder(default)`). -/
structure MountBuilder where
  destination : Option String
  typ : Option (Option String)
  source : Option (Option String)
  options : Option (Option (List String))
deriving DecidableEq, Repr

/-- `MountBuilder::default()`: all fields unset. -/
def MountBuilder.default : MountBuilder :=
  { destination := none, typ := none, source := none, options := none }

/-- `MountBuilder::build`: never fails; unset fields come from
`Mount::default()`. -/
def MountBuilder.build (b : MountBuilder) : Except String Mount :=
  .ok { destination := b.destination.getD Mount.default.destination,
        typ := b.typ.getD Mount.default.typ,
        source := b.source.getD Mount.default.source,
        options := b.options.getD Mount.default.options }

/-- `get_default_mounts`: the fixed spec-recommended mount sequence, freshly
constructed on every call (a pure constant function in this model). -/
def get_default_mounts : List Mount :=
  [ { destination := "/proc", typ := some "proc", source := some "proc", options := none },
    { destination := "/dev", typ := some "tmpfs", source := some "tmpfs",
      options := some ["nosuid", "strictatime", "mode=755", "size=65536k"] },
    { destination := "/dev/pts", typ := some "devpts", source := some "devpts",
      options := some ["nosuid", "noexec", "newinstance", "ptmxmode=0666", "mode=0620",
        "gid=5"] },
    { destination := "/dev/shm", typ := some "tmpfs", source := some "shm",
      options := some ["nosuid", "noexec", "nodev", "mode=1777", "size=65536k"] },
    { destination := "/dev/mqueue", typ := some "mqueue", source := some "mqueue",
      options := some ["nosuid", "noexec", "nodev"] },
    { destination := "/sys", typ := some "sysfs", source := some "sysfs",
      options := some ["nosuid", "noexec", "nodev", "ro"] },
    { destination := "/sys/fs/cgroup", typ := some "cgroup", source := some "cgroup",
      options := some ["nosuid", "noexec", "nodev", "relatime", "ro"] } ]

/-! ### Round-trip helper lemmas for `Root` and `Mount` -/

theorem root_roundtrip (r : Root) : Root.fromJson (Root.toJson r) = .ok r := by
  obtain ⟨path, readonly⟩ := r
  simp [Root.toJson, Root.fromJson, Json.getObj, decodeWithDefault, decodeString]

theorem mount_roundtrip (m : Mount) : Mount.fromJson (Mount.toJson m) = .ok m := by
  obtain ⟨destination, typ, source, options⟩ := m
  simp [Mount.toJson, Mount.fromJson, Json.getObj, reqField, decodeString]

/-- Generic composition lemma: an optional field whose encoder and decoder
invert each other decodes back to the original optional value. -/
theorem optDecode_comp (dec : Json → Except String α) (enc : α → Json) (o : Option α)
    (hrt : ∀ a, dec (enc a) = .ok a) (hnn : ∀ a, (enc a).isNull = false) :
    optDecode dec (o.map enc) = .ok o := by
  cases o with
  | none => rfl
  | some a => simp [optDecode, hnn a, hrt a, Except.map]

/-! ## Runtime: `Hook` and `Hooks` (src/runtime/hooks.rs) -/

/-- Hook specifies a command that is run at a particular event in the
lifecycle of a container. `timeout` is a Rust `i64`, modelled as `Int`. -/
structure Hook where
  path : String
  args : Option (List String)
  env : Option (List String)
  timeout : Option Int
deriving DecidableEq, Repr

/-- derived `Default` for `Hook`: empty path, everything else absent. -/
def Hook.default : Hook :=
  { path := "", args := none, env := none, timeout := none }

/-- A `Hook` value is representable in the source's types when its timeout,
if present, fits in `i64` (true of every Rust `Hook` by construction). -/
def Hook.wf (h : Hook) : Bool :=
  match h.timeout with
  | none => true
  | some t => decide (-(2 ^ 63) ≤ t) && decide (t < 2 ^ 63)

/-- serde `Serialize` for `Hook`: field order `path`, `args`, `env`,
`timeout`; optional fields omitted when `None`. -/
def Hook.toJson (h : Hook) : Json :=
  .obj ([("path", Json.str h.path)]
    ++ optJField "args" (h.args.map strListToJson)
    ++ optJField "env" (h.env.map strListToJson)
    ++ optJField "timeout" (h.timeout.map Json.num))

/-- serde `Deserialize` for `Hook`: `path` is required (no serde default);
the other three fields default to `None` when absent. -/
def Hook.fromJson (j : Json) : Except String Hook := do
  let fields ← j.getObj
  let path ← reqField fields "path" >>= decodeString
  let args ← optDecode decodeStringList (Json.lookup fields "args")
  let env ← optDecode decodeStringList (Json.lookup fields "env")
  let timeout ← optDecode decodeI64 (Json.lookup fields "timeout")
  .ok { path := path, args := args, env := env, timeout := timeout }

/-- `HookBuilder` (derive_builder, struct-level `builder(default)`). -/
structure HookBuilder where
  path : Option String
  args : Option (Option (List String))
  env : Option (Option (List String))
  timeout : Option (Option Int)
deriving DecidableEq, Repr

/-- `HookBuilder::default()`: all fields unset. -/
def HookBuilder.default : HookBuilder :=
  { path := none, args := none, env := none, timeout := none }

/-- `HookBuilder::build`: never fails; unset fields come from
`Hook::default()`. -/
def HookBuilder.build (b : HookBuilder) : Except String Hook :=
  .ok { path := b.path.getD Hook.default.path,
        args := b.args.getD Hook.default.args,
        env := b.env.getD Hook.default.env,
        timeout := b.timeout.getD Hook.default.timeout }

theorem decodeI64_num (t : Int) (h1 : -(2 ^ 63) ≤ t) (h2 : t < 2 ^ 63) :
    decodeI64 (Json.num t) = .ok t := by
  show (if -(2 ^ 63) ≤ t ∧ t < 2 ^ 63 then Except.ok t
    else Except.error "invalid value: integer out of range for i64") = .ok t
  rw [if_pos ⟨h1, h2⟩]

theorem optDecode_some_i64 (t : Int) (h1 : -(2 ^ 63) ≤ t) (h2 : t < 2 ^ 63) :
    optDecode decodeI64 (some (Json.num t)) = .ok (some t) := by
  simp [optDecode, decodeI64_num t h1 h2, Except.map]

theorem hook_roundtrip (h : Hook) (hw : h.wf = true) :
    Hook.fromJson (Hook.toJson h) = .ok h := by
  obtain ⟨path, args, env, timeout⟩ := h
  cases timeout with
  | none => simp [Hook.toJson, Hook.fromJson, Json.getObj, reqField, decodeString]
  | some t =>
      simp only [Hook.wf, Bool.and_eq_true, decide_eq_true_eq] at hw
      simp [Hook.toJson, Hook.fromJson, Json.getObj, reqField, decodeString,
        optDecode_some_i64 t hw.1 hw.2]

/-- Serialize a `Vec<Hook>` value. -/
def hookListToJson (l : List Hook) : Json :=
  .arr (l.map Hook.toJson)

/-- Representability of an optional hook list. -/
def hookListWf (o : Option (List Hook)) : Bool :=
  match o with
  | none => true
  | some l => l.all Hook.wf

theorem optDecode_hookList (o : Option (List Hook)) (ho : hookListWf o = true) :
    optDecode (decodeList Hook.fromJson) (o.map hookListToJson) = .ok o := by
  cases o with
  | none => rfl
  | some l =>
      simp only [hookListWf, List.all_eq_true] at ho
      simp [optDecode, hookListToJson, Json.isNull, decodeList,
        decodeElems_map Hook.fromJson Hook.toJson l (fun a ha => hook_roundtrip a (ho a ha)),
        Except.map]

/-- Hooks groups the lifecycle hook lists; every field is optional. The
`prestart` field is deprecated in the source but still (de)serialized. -/
structure Hooks where
  prestart : Option (List Hook)
  create_runtime : Option (List Hook)
  create_container : Option (List Hook)
  start_container : Option (List Hook)
  poststart : Option (List Hook)
  poststop : Option (List Hook)
deriving DecidableEq, Repr

/-- derived `Default` for `Hooks`: every hook list absent. -/
def Hooks.default : Hooks :=
  { prestart := none, create_runtime := none, create_container := none,
    start_container := none, poststart := none, poststop := none }

/-- Representability of a `Hooks` value in the source's machine types. -/
def Hooks.wf (h : Hooks) : Bool :=
  hookListWf h.prestart && hookListWf h.create_runtime && hookListWf h.create_container
    && hookListWf h.start_container && hookListWf h.poststart && hookListWf h.poststop

/-- serde `Serialize` for `Hooks`: `rename_all = "camelCase"`, declaration
order, every field omitted when `None`. -/
def Hooks.toJson (h : Hooks) : Json :=
  .obj (optJField "prestart" (h.prestart.map hookListToJson)
    ++ optJField "createRuntime" (h.create_runtime.map hookListToJson)
    ++ optJField "createContainer" (h.create_container.map hookListToJson)
    ++ optJField "startContainer" (h.start_container.map hookListToJson)
    ++ optJField "poststart" (h.poststart.map hookListToJson)
    ++ optJField "poststop" (h.poststop.map hookListToJson))

/-- serde `Deserialize` for `Hooks`: every field optional (absent parses to
`None`); unknown fields are ignored. -/
def Hooks.fromJson (j : Json) : Except String Hooks := do
  let fields ← j.getObj
  let prestart ← optDecode (decodeList Hook.fromJson) (Json.lookup fields "prestart")
  let create_runtime ← optDecode (decodeList Hook.fromJson) (Json.lookup fields "createRuntime")
  let create_container ←
    optDecode (decodeList Hook.fromJson) (Json.lookup fields "createContainer")
  let start_container ←
    optDecode (decodeList Hook.fromJson) (Json.lookup fields "startContainer")
  let poststart ← optDecode (decodeList Hook.fromJson) (Json.lookup fields "poststart")
  let poststop ← optDecode (decodeList Hook.fromJson) (Json.lookup fields "poststop")
  .ok { prestart := prestart, create_runtime := create_runtime,
        create_container := create_container, start_container := start_container,
        poststart := poststart, poststop := poststop }

/-- `HooksBuilder` (derive_builder, struct-level `builder(default)`). -/
structure HooksBuilder where
  prestart : Option (Option (List Hook))
  create_runtime : Option (Option (List Hook))
  create_container : Option (Option (List Hook))
  start_container : Option (Option (List Hook))
  poststart : Option (Option (List Hook))
  poststop : Option (Option (List Hook))
deriving DecidableEq, Repr

/-- `HooksBuilder::default()`: all fields unset. -/
def HooksBuilder.default : HooksBuilder :=
  { prestart := none, create_runtime := none, create_container := none,
    start_container := none, poststart := none, poststop := none }

/-- `HooksBuilder::build`: never fails; unset fields come from
`Hooks::default()`. -/
def HooksBuilder.build (b : HooksBuilder) : Except String Hooks :=
  .ok { prestart := b.prestart.getD Hooks.default.prestart,
        create_runtime := b.create_runtime.getD Hooks.default.create_runtime,
        create_container := b.create_container.getD Hooks.default.create_container,
        start_container := b.start_container.getD Hooks.default.start_container,
        poststart := b.poststart.getD Hooks.default.poststart,
        poststop := b.poststop.getD Hooks.default.poststop }

theorem hooks_roundtrip (h : Hooks) (hw : h.wf = true) :
    Hooks.fromJson (Hooks.toJson h) = .ok h := by
  obtain ⟨o1, o2, o3, o4, o5, o6⟩ := h
  simp only [Hooks.wf, Bool.and_eq_true] at hw
  obtain ⟨⟨⟨⟨⟨w1, w2⟩, w3⟩, w4⟩, w5⟩, w6⟩ := hw
  simp [Hooks.toJson, Hooks.fromJson, Json.getObj,
    optDecode_hookList _ w1, optDecode_hookList _ w2, optDecode_hookList _ w3,
    optDecode_hookList _ w4, optDecode_hookList _ w5, optDecode_hookList _ w6]

/-! ## Runtime: `Solaris` and its sub-blocks (src/runtime/solaris.rs) -/

/-- SolarisCappedCPU: CPU-time cap; every field optional. -/
structure SolarisCappedCPU where
  ncpus : Option String
deriving DecidableEq, Repr

/-- derived `Default` for `SolarisCappedCPU`. -/
def SolarisCappedCPU.default : SolarisCappedCPU :=
  { ncpus := none }

/-- serde `Serialize` for `SolarisCappedCPU` (no rename; field `ncpus`). -/
def SolarisCappedCPU.toJson (s : SolarisCappedCPU) : Json :=
  .obj (optJField "ncpus" (s.ncpus.map Json.str))

/-- serde `Deserialize` for `SolarisCappedCPU`. -/
def SolarisCappedCPU.fromJson (j : Json) : Except String SolarisCappedCPU := do
  let fields ← j.getObj
  let ncpus ← optDecode decodeString (Json.lookup fields "ncpus")
  .ok { ncpus := ncpus }

/-- SolarisCappedMemory: physical and swap memory caps; every field
optional. -/
structure SolarisCappedMemory where
  physical : Option String
  swap : Option String
deriving DecidableEq, Repr

/-- derived `Default` for `SolarisCappedMemory`. -/
def SolarisCappedMemory.default : SolarisCappedMemory :=
  { physical := none, swap := none }

/-- serde `Serialize` for `SolarisCappedMemory` (no rename). -/
def SolarisCappedMemory.toJson (s : SolarisCappedMemory) : Json :=
  .obj (optJField "physical" (s.physical.map Json.str)
    ++ optJField "swap" (s.swap.map Json.str))

/-- serde `Deserialize` for `SolarisCappedMemory`. -/
def SolarisCappedMemory.fromJson (j : Json) : Except String SolarisCappedMemory := do
  let fields ← j.getObj
  let physical ← optDecode decodeString (Json.lookup fields "physical")
  let swap ← optDecode decodeString (Json.lookup fields "swap")
  .ok { physical := physical, swap := swap }

/-- SolarisAnet: automatic network resource creation; every field
optional. -/
structure SolarisAnet where
  linkname : Option String
  lower_link : Option String
  allowed_address : Option String
  configure_allowed_address : Option String
  defrouter : Option String
  link_protection : Option String
  mac_address : Option String
deriving DecidableEq, Repr

/-- derived `Default` for `SolarisAnet`. -/
def SolarisAnet.default : SolarisAnet :=
  { linkname := none, lower_link := none, allowed_address := none,
    configure_allowed_address := none, defrouter := none, link_protection := none,
    mac_address := none }

/-- serde `Serialize` for `SolarisAnet` (`rename_all = "camelCase"`). -/
def SolarisAnet.toJson (s : SolarisAnet) : Json :=
  .obj (optJField "linkname" (s.linkname.map Json.str)
    ++ optJField "lowerLink" (s.lower_link.map Json.str)
    ++ optJField "allowedAddress" (s.allowed_address.map Json.str)
    ++ optJField "configureAllowedAddress" (s.configure_allowed_address.map Json.str)
    ++ optJField "defrouter" (s.defrouter.map Json.str)
    ++ optJField "linkProtection" (s.link_protection.map Json.str)
    ++ optJField "macAddress" (s.mac_address.map Json.str))

/-- serde `Deserialize` for `SolarisAnet`. -/
def SolarisAnet.fromJson (j : Json) : Except String SolarisAnet := do
  let fields ← j.getObj
  let linkname ← optDecode decodeString (Json.lookup fields "linkname")
  let lower_link ← optDecode decodeString (Json.lookup fields "lowerLink")
  let allowed_address ← optDecode decodeString (Json.lookup fields "allowedAddress")
  let configure_allowed_address ←
    optDecode decodeString (Json.lookup fields "configureAllowedAddress")
  let defrouter ← optDecode decodeString (Json.lookup fields "defrouter")
  let link_protection ← optDecode decodeString (Json.lookup fields "linkProtection")
  let mac_address ← optDecode decodeString (Json.lookup fields "macAddress")
  .ok { linkname := linkname, lower_link := lower_link,
        allowed_address := allowed_address,
        configure_allowed_address := configure_allowed_address,
        defrouter := defrouter, link_protection := link_protection,
        mac_address := mac_address }

/-- Solaris platform-specific configuration; every field optional. -/
structure Solaris where
  milestone : Option String
  limitpriv : Option String
  max_shm_memory : Option String
  anet : Option (List SolarisAnet)
  capped_cpu : Option SolarisCappedCPU
  capped_memory : Option SolarisCappedMemory
deriving DecidableEq, Repr

/-- derived `Default` for `Solaris`. -/
def Solaris.default : Solaris :=
  { milestone := none, limitpriv := none, max_shm_memory := none, anet := none,
    capped_cpu := none, capped_memory := none }

/-- Serialize a `Vec<SolarisAnet>` value. -/
def anetListToJson (l : List SolarisAnet) : Json :=
  .arr (l.map SolarisAnet.toJson)

/-- serde `Serialize` for `Solaris` (`rename_all = "camelCase"`, with
`capped_cpu` explicitly renamed to `cappedCPU`). -/
def Solaris.toJson (s : Solaris) : Json :=
  .obj (optJField "milestone" (s.milestone.map Json.str)
    ++ optJField "limitpriv" (s.limitpriv.map Json.str)
    ++ optJField "maxShmMemory" (s.max_shm_memory.map Json.str)
    ++ optJField "anet" (s.anet.map anetListToJson)
    ++ optJField "cappedCPU" (s.capped_cpu.map SolarisCappedCPU.toJson)
    ++ optJField "cappedMemory" (s.capped_memory.map SolarisCappedMemory.toJson))

/-- serde `Deserialize` for `Solaris`. -/
def Solaris.fromJson (j : Json) : Except String Solaris := do
  let fields ← j.getObj
  let milestone ← optDecode decodeString (Json.lookup fields "milestone")
  let limitpriv ← optDecode decodeString (Json.lookup fields "limitpriv")
  let max_shm_memory ← optDecode decodeString (Json.lookup fields "maxShmMemory")
  let anet ← optDecode (decodeList SolarisAnet.fromJson) (Json.lookup fields "anet")
  let capped_cpu ← optDecode SolarisCappedCPU.fromJson (Json.lookup fields "cappedCPU")
  let capped_memory ←
    optDecode SolarisCappedMemory.fromJson (Json.lookup fields "cappedMemory")
  .ok { milestone := milestone, limitpriv := limitpriv,
        max_shm_memory := max_shm_memory, anet := anet, capped_cpu := capped_cpu,
        capped_memory := capped_memory }

/-- `SolarisBuilder` (derive_builder, struct-level `builder(default)`). -/
structure SolarisBuilder where
  milestone : Option (Option String)
  limitpriv : Option (Option String)
  max_shm_memory : Option (Option String)
  anet : Option (Option (List SolarisAnet))
  capped_cpu : Option (Option SolarisCappedCPU)
  capped_memory : Option (Option SolarisCappedMemory)
deriving DecidableEq, Repr

/-- `SolarisBuilder::default()`: all fields unset. -/
def SolarisBuilder.default : SolarisBuilder :=
  { milestone := none, limitpriv := none, max_shm_memory := none, anet := none,
    capped_cpu := none, capped_memory := none }

/-- `SolarisBuilder::build`: never fails. -/
def SolarisBuilder.build (b : SolarisBuilder) : Except String Solaris :=
  .ok { milestone := b.milestone.getD none, limitpriv := b.limitpriv.getD none,
        max_shm_memory := b.max_shm_memory.getD none, anet := b.anet.getD none,
        capped_cpu := b.capped_cpu.getD none, capped_memory := b.capped_memory.getD none }

/-- `SolarisAnetBuilder` (derive_builder, struct-level `builder(default)`). -/
structure SolarisAnetBuilder where
  linkname : Option (Option String)
  lower_link : Option (Option String)
  allowed_address : Option (Option String)
  configure_allowed_address : Option (Option String)
  defrouter : Option (Option String)
  link_protection : Option (Option String)
  mac_address : Option (Option String)
deriving DecidableEq, Repr

/-- `SolarisAnetBuilder::default()`: all fields unset. -/
def SolarisAnetBuilder.default : SolarisAnetBuilder :=
  { linkname := none, lower_link := none, allowed_address := none,
    configure_allowed_address := none, defrouter := none, link_protection := none,
    mac_address := none }

/-- `SolarisAnetBuilder::build`: never fails. -/
def SolarisAnetBuilder.build (b : SolarisAnetBuilder) : Except String SolarisAnet :=
  .ok { linkname := b.linkname.getD none, lower_link := b.lower_link.getD none,
        allowed_address := b.allowed_address.getD none,
        configure_allowed_address := b.configure_allowed_address.getD none,
        defrouter := b.defrouter.getD none,
        link_protection := b.link_protection.getD none,
        mac_address := b.mac_address.getD none }

/-- `SolarisCappedCPUBuilder` (derive_builder, struct-level
`builder(default)`). -/
structure SolarisCappedCPUBuilder where
  ncpus : Option (Option String)
deriving DecidableEq, Repr

/-- `SolarisCappedCPUBuilder::default()`: all fields unset. -/
def SolarisCappedCPUBuilder.default : SolarisCappedCPUBuilder :=
  { ncpus := none }

/-- `SolarisCappedCPUBuilder::build`: never fails. -/
def SolarisCappedCPUBuilder.build (b : SolarisCappedCPUBuilder) :
    Except String SolarisCappedCPU :=
  .ok { ncpus := b.ncpus.getD none }

/-- `SolarisCappedMemoryBuilder` (derive_builder, struct-level
`builder(default)`). -/
structure SolarisCappedMemoryBuilder where
  physical : Option (Option String)
  swap : Option (Option String)
deriving DecidableEq, Repr

/-- `SolarisCappedMemoryBuilder::default()`: all fields unset. -/
def SolarisCappedMemoryBuilder.default : SolarisCappedMemoryBuilder :=
  { physical := none, swap := none }

/-- `SolarisCappedMemoryBuilder::build`: never fails. -/
def SolarisCappedMemoryBuilder.build (b : SolarisCappedMemoryBuilder) :
    Except String SolarisCappedMemory :=
  .ok { physical := b.physical.getD none, swap := b.swap.getD none }

theorem cappedCPU_roundtrip (s : SolarisCappedCPU) :
    SolarisCappedCPU.fromJson (SolarisCappedCPU.toJson s) = .ok s := by
  obtain ⟨ncpus⟩ := s
  simp [SolarisCappedCPU.toJson, SolarisCappedCPU.fromJson, Json.getObj]

theorem cappedMemory_roundtrip (s : SolarisCappedMemory) :
    SolarisCappedMemory.fromJson (SolarisCappedMemory.toJson s) = .ok s := by
  obtain ⟨physical, swap⟩ := s
  simp [SolarisCappedMemory.toJson, SolarisCappedMemory.fromJson, Json.getObj]

theorem anet_roundtrip (s : SolarisAnet) :
    SolarisAnet.fromJson (SolarisAnet.toJson s) = .ok s := by
  obtain ⟨f1, f2, f3, f4, f5, f6, f7⟩ := s
  simp [SolarisAnet.toJson, SolarisAnet.fromJson, Json.getObj]

theorem solaris_roundtrip (s : Solaris) :
    Solaris.fromJson (Solaris.toJson s) = .ok s := by
  obtain ⟨f1, f2, f3, f4, f5, f6⟩ := s
  simp [Solaris.toJson, Solaris.fromJson, Json.getObj,
    optDecode_comp (decodeList SolarisAnet.fromJson) anetListToJson f4
      (fun l => by
        simp [anetListToJson, decodeList,
          decodeElems_map SolarisAnet.fromJson SolarisAnet.toJson l
            (fun a _ => anet_roundtrip a)])
      (fun l => rfl),
    optDecode_comp SolarisCappedCPU.fromJson SolarisCappedCPU.toJson f5
      (fun a => cappedCPU_roundtrip a) (fun a => rfl),
    optDecode_comp SolarisCappedMemory.fromJson SolarisCappedMemory.toJson f6
      (fun a => cappedMemory_roundtrip a) (fun a => rfl)]

/-! ## Distribution: `ErrorCode`, `ErrorInfo`, `ErrorResponse`
(src/distribution/error.rs) -/

/-- Unique identifier representing a registry error code (closed
enumeration). -/
inductive ErrorCode where
  | BlobUnknown
  | BlobUploadInvalid
  | BlobUploadUnknown
  | DigestInvalid
  | ManifestBlobUnknown
  | ManifestInvalid
  | ManifestUnknown
  | NameInvalid
  | NameUnknown
  | SizeInvalid
  | Unauthorized
  | Denied
  | Unsupported
  | TooManyRequests
deriving DecidableEq, Repr

/-- The Rust identifier of each `ErrorCode` variant. -/
def ErrorCode.variantName : ErrorCode → String
  | .BlobUnknown => "BlobUnknown"
  | .BlobUploadInvalid => "BlobUploadInvalid"
  | .BlobUploadUnknown => "BlobUploadUnknown"
  | .DigestInvalid => "DigestInvalid"
  | .ManifestBlobUnknown => "ManifestBlobUnknown"
  | .ManifestInvalid => "ManifestInvalid"
  | .ManifestUnknown => "ManifestUnknown"
  | .NameInvalid => "NameInvalid"
  | .NameUnknown => "NameUnknown"
  | .SizeInvalid => "SizeInvalid"
  | .Unauthorized => "Unauthorized"
  | .Denied => "Denied"
  | .Unsupported => "Unsupported"
  | .TooManyRequests => "TooManyRequests"

/-- serde wire literal of each variant:
`rename_all = "SCREAMING_SNAKE_CASE"`, with `TooManyRequests` explicitly
renamed to the irregular `TOOMANYREQUESTS`. -/
def ErrorCode.toWire : ErrorCode → String
  | .BlobUnknown => "BLOB_UNKNOWN"
  | .BlobUploadInvalid => "BLOB_UPLOAD_INVALID"
  | .BlobUploadUnknown => "BLOB_UPLOAD_UNKNOWN"
  | .DigestInvalid => "DIGEST_INVALID"
  | .ManifestBlobUnknown => "MANIFEST_BLOB_UNKNOWN"
  | .ManifestInvalid => "MANIFEST_INVALID"
  | .ManifestUnknown => "MANIFEST_UNKNOWN"
  | .NameInvalid => "NAME_INVALID"
  | .NameUnknown => "NAME_UNKNOWN"
  | .SizeInvalid => "SIZE_INVALID"
  | .Unauthorized => "UNAUTHORIZED"
  | .Denied => "DENIED"
  | .Unsupported => "UNSUPPORTED"
  | .TooManyRequests => "TOOMANYREQUESTS"

/-- Mechanical SCREAMING_SNAKE_CASE conversion of the tail of a PascalCase
identifier: an uppercase letter is preceded by an underscore, a lowercase
letter is uppercased. -/
def screamingTail : List Char → List Char
  | [] => []
  | c :: rest =>
      (if c.isUpper then ['_', c] else [c.toUpper]) ++ screamingTail rest

/-- Mechanical SCREAMING_SNAKE_CASE conversion of a PascalCase identifier. -/
def screamingSnake (s : String) : String :=
  match s.toList with
  | [] => ""
  | c :: rest => String.mk (c.toUpper :: screamingTail rest)

/-- The closed wire-literal table of `ErrorCode` (decode side of the serde
derive). -/
def errorCodeWireTable : List (String × ErrorCode) :=
  [("BLOB_UNKNOWN", .BlobUnknown),
   ("BLOB_UPLOAD_INVALID", .BlobUploadInvalid),
   ("BLOB_UPLOAD_UNKNOWN", .BlobUploadUnknown),
   ("DIGEST_INVALID", .DigestInvalid),
   ("MANIFEST_BLOB_UNKNOWN", .ManifestBlobUnknown),
   ("MANIFEST_INVALID", .ManifestInvalid),
   ("MANIFEST_UNKNOWN", .ManifestUnknown),
   ("NAME_INVALID", .NameInvalid),
   ("NAME_UNKNOWN", .NameUnknown),
   ("SIZE_INVALID", .SizeInvalid),
   ("UNAUTHORIZED", .Unauthorized),
   ("DENIED", .Denied),
   ("UNSUPPORTED", .Unsupported),
   ("TOOMANYREQUESTS", .TooManyRequests)]

/-- First-match lookup in an association list keyed by strings. -/
def assocLookup (l : List (String × α)) (s : String) : Option α :=
  match l with
  | [] => none
  | kv :: rest => if kv.1 = s then some kv.2 else assocLookup rest s

/-- serde decode of an `ErrorCode` wire literal: a literal outside the
closed set is an error. -/
def ErrorCode.fromWire (s : String) : Except String ErrorCode :=
  match assocLookup errorCodeWireTable s with
  | some c => .ok c
  | none => .error ("unknown variant " ++ s)

/-- serde `Serialize` for `ErrorCode`: a unit enum variant serializes as its
wire literal string. -/
def ErrorCode.toJson (c : ErrorCode) : Json :=
  .str c.toWire

/-- serde `Deserialize` for `ErrorCode`. -/
def ErrorCode.fromJson : Json → Except String ErrorCode
  | .str s => ErrorCode.fromWire s
  | _ => .error "invalid type: expected string"

theorem assocLookup_sound (l : List (String × α)) (f : α → String)
    (hl : ∀ p ∈ l, f p.2 = p.1) (s : String) (c : α)
    (h : assocLookup l s = some c) : f c = s := by
  induction l with
  | nil => exact absurd h (by simp [assocLookup])
  | cons kv rest ih =>
      by_cases hk : kv.1 = s
      · rw [assocLookup, if_pos hk] at h
        cases h
        rw [← hk]
        exact hl kv (List.mem_cons_self kv rest)
      · rw [assocLookup, if_neg hk] at h
        exact ih (fun p hp => hl p (List.mem_cons_of_mem kv hp)) h

theorem errorCode_fromWire_toWire (c : ErrorCode) :
    ErrorCode.fromWire (ErrorCode.toWire c) = .ok c := by
  cases c <;> rfl

theorem errorCode_roundtrip (c : ErrorCode) :
    ErrorCode.fromJson (ErrorCode.toJson c) = .ok c := by
  simpa [ErrorCode.toJson, ErrorCode.fromJson] using errorCode_fromWire_toWire c

/-- Describes a server error returned from a registry. -/
structure ErrorInfo where
  code : ErrorCode
  message : Option String
  detail : Option String
deriving DecidableEq, Repr

/-- serde `Serialize` for `ErrorInfo`: field order `code`, `message`,
`detail`; optional fields omitted when `None`. -/
def ErrorInfo.toJson (e : ErrorInfo) : Json :=
  .obj ([("code", e.code.toJson)]
    ++ optJField "message" (e.message.map Json.str)
    ++ optJField "detail" (e.detail.map Json.str))

/-- serde `Deserialize` for `ErrorInfo`: `code` is required; `message` and
`detail` default to `None` when absent. -/
def ErrorInfo.fromJson (j : Json) : Except String ErrorInfo := do
  let fields ← j.getObj
  let code ← reqField fields "code" >>= ErrorCode.fromJson
  let message ← optDecode decodeString (Json.lookup fields "message")
  let detail ← optDecode decodeString (Json.lookup fields "detail")
  .ok { code := code, message := message, detail := detail }

/-- ErrorResponse is returned by a registry on an invalid request. -/
structure ErrorResponse where
  errors : List ErrorInfo
deriving DecidableEq, Repr

/-- serde `Serialize` for `ErrorResponse`. -/
def ErrorResponse.toJson (r : ErrorResponse) : Json :=
  .obj [("errors", Json.arr (r.errors.map ErrorInfo.toJson))]

/-- serde `Deserialize` for `ErrorResponse`: `errors` is required. -/
def ErrorResponse.fromJson (j : Json) : Except String ErrorResponse := do
  let fields ← j.getObj
  let errors ← reqField fields "errors" >>= decodeList ErrorInfo.fromJson
  .ok { errors := errors }

/-- Modelled from the spec: the construction-error kind of
`crate::error::OciSpecError` (its source is not in the sample), which names
the builder field that was never set. -/
inductive OciSpecError where
  | builder (field : String)
deriving DecidableEq, Repr

/-- `ErrorResponseBuilder` (derive_builder, owned; no struct-level default,
so `errors` is required). -/
structure ErrorResponseBuilder where
  errors : Option (List ErrorInfo)
deriving DecidableEq, Repr

/-- `ErrorResponseBuilder::default()`: all fields unset. -/
def ErrorResponseBuilder.default : ErrorResponseBuilder :=
  { errors := none }

/-- `ErrorResponseBuilder::build`: fails naming `errors` when it was never
set. -/
def ErrorResponseBuilder.build (b : ErrorResponseBuilder) :
    Except OciSpecError ErrorResponse :=
  match b.errors with
  | some es => .ok { errors := es }
  | none => .error (.builder "errors")

/-- `ErrorInfoBuilder` (derive_builder, owned; `code` required, `message`
and `detail` carry the field-level default `None`). -/
structure ErrorInfoBuilder where
  code : Option ErrorCode
  message : Option (Option String)
  detail : Option (Option String)
deriving DecidableEq, Repr

/-- `ErrorInfoBuilder::default()`: all fields unset. -/
def ErrorInfoBuilder.default : ErrorInfoBuilder :=
  { code := none, message := none, detail := none }

/-- `ErrorInfoBuilder::build`: fails naming `code` when it was never set;
`message`/`detail` fall back to their declared default `None`. -/
def ErrorInfoBuilder.build (b : ErrorInfoBuilder) : Except OciSpecError ErrorInfo :=
  match b.code with
  | some c =>
      .ok { code := c, message := b.message.getD none, detail := b.detail.getD none }
  | none => .error (.builder "code")

theorem errorInfo_roundtrip (e : ErrorInfo) :
    ErrorInfo.fromJson (ErrorInfo.toJson e) = .ok e := by
  obtain ⟨code, message, detail⟩ := e
  simp [ErrorInfo.toJson, ErrorInfo.fromJson, Json.getObj, reqField,
    errorCode_roundtrip]

theorem errorResponse_roundtrip (r : ErrorResponse) :
    ErrorResponse.fromJson (ErrorResponse.toJson r) = .ok r := by
  obtain ⟨errors⟩ := r
  simp [ErrorResponse.toJson, ErrorResponse.fromJson, Json.getObj, reqField, decodeList,
    decodeElems_map ErrorInfo.fromJson ErrorInfo.toJson errors
      (fun a _ => errorInfo_roundtrip a)]

/-! ## Image: `ImageIndex` (src/image/index.rs), with `Descriptor`,
`Platform` and `MediaType` modelled from the spec (their source files are
not part of the sample). -/

/-- The expected schema version; equals 2 for compatibility with older
versions of Docker (`SCHEMA_VERSION: u32`, the machine integer modelled as
`Int`). -/
def SCHEMA_VERSION : Int := 2

/-- Modelled from the spec: `Platform` (its source file is missing from the
sample): architecture and OS are open string-valued enumerations that
round-trip unknown literals verbatim, so both are modelled as strings;
`os_version?`, `os_features?` and `variant?` are optional; lowerCamelCase
wire names. -/
structure Platform where
  architecture : String
  os : String
  os_version : Option String
  os_features : Option (List String)
  variant : Option String
deriving DecidableEq, Repr

/-- Modelled from the spec: serialization of `Platform` (declaration order,
optional-and-absent fields omitted, lowerCamelCase wire names). -/
def Platform.toJson (p : Platform) : Json :=
  .obj ([("architecture", Json.str p.architecture), ("os", Json.str p.os)]
    ++ optJField "osVersion" (p.os_version.map Json.str)
    ++ optJField "osFeatures" (p.os_features.map strListToJson)
    ++ optJField "variant" (p.variant.map Json.str))

/-- Modelled from the spec: deserialization of `Platform` (`architecture`
and `os` required, the rest optional, unknown fields ignored). -/
def Platform.fromJson (j : Json) : Except String Platform := do
  let fields ← j.getObj
  let architecture ← reqField fields "architecture" >>= decodeString
  let os ← reqField fields "os" >>= decodeString
  let os_version ← optDecode decodeString (Json.lookup fields "osVersion")
  let os_features ← optDecode decodeStringList (Json.lookup fields "osFeatures")
  let variant ← optDecode decodeString (Json.lookup fields "variant")
  .ok { architecture := architecture, os := os, os_version := os_version,
        os_features := os_features, variant := variant }

/-- Modelled from the spec: `Descriptor` (its source file is missing from
the sample): `media_type` (a string-valued media type), `digest` and `size`
(a non-negative byte count, modelled as `Nat` with the u64 range) are
required; `urls?`, `annotations?` and `platform?` are optional. -/
structure Descriptor where
  media_type : String
  digest : String
  size : Int
  urls : Option (List String)
  annotations : Option (List (String × String))
  platform : Option Platform
deriving DecidableEq, Repr

/-- A `Descriptor` is representable in the source's machine types when its
size fits in u64. -/
def Descriptor.wf (d : Descriptor) : Bool :=
  decide (0 ≤ d.size) && decide (d.size < 2 ^ 64)

/-- Modelled from the spec: serialization of `Descriptor` (declaration
order, lowerCamelCase wire names, optional-and-absent fields omitted). -/
def Descriptor.toJson (d : Descriptor) : Json :=
  .obj ([("mediaType", Json.str d.media_type), ("digest", Json.str d.digest),
         ("size", Json.num d.size)]
    ++ optJField "urls" (d.urls.map strListToJson)
    ++ optJField "annotations" (d.annotations.map strMapToJson)
    ++ optJField "platform" (d.platform.map Platform.toJson))

/-- Modelled from the spec: deserialization of `Descriptor`. -/
def Descriptor.fromJson (j : Json) : Except String Descriptor := do
  let fields ← j.getObj
  let media_type ← reqField fields "mediaType" >>= decodeString
  let digest ← reqField fields "digest" >>= decodeString
  let size ← reqField fields "size" >>= decodeU64
  let urls ← optDecode decodeStringList (Json.lookup fields "urls")
  let annotations ← optDecode decodeStringMap (Json.lookup fields "annotations")
  let platform ← optDecode Platform.fromJson (Json.lookup fields "platform")
  .ok { media_type := media_type, digest := digest, size := size, urls := urls,
        annotations := annotations, platform := platform }

/-- The image index: a higher-level manifest pointing at platform-specific
image manifests. -/
structure ImageIndex where
  schema_version : Int
  media_type : Option String
  manifests : List Descriptor
  annotations : Option (List (String × String))
deriving DecidableEq, Repr

/-- `impl Default for ImageIndex`: `schema_version = SCHEMA_VERSION`, the
other fields take their type defaults. -/
def ImageIndex.default : ImageIndex :=
  { schema_version := SCHEMA_VERSION, media_type := none, manifests := [],
    annotations := none }

/-- An `ImageIndex` is representable in the source's machine types when its
schema version fits in u32 and every manifest descriptor is representable. -/
def ImageIndex.wf (i : ImageIndex) : Bool :=
  decide (0 ≤ i.schema_version) && decide (i.schema_version < 2 ^ 32)
    && i.manifests.all Descriptor.wf

/-- serde `Serialize` for `ImageIndex`: `rename_all = "camelCase"`,
declaration order `schemaVersion`, `mediaType`, `manifests`, `annotations`;
`mediaType` and `annotations` omitted when `None`. -/
def ImageIndex.toJson (i : ImageIndex) : Json :=
  .obj ([("schemaVersion", Json.num i.schema_version)]
    ++ optJField "mediaType" (i.media_type.map Json.str)
    ++ ([("manifests", Json.arr (i.manifests.map Descriptor.toJson))]
      ++ optJField "annotations" (i.annotations.map strMapToJson)))

/-- serde `Deserialize` for `ImageIndex`: `schemaVersion` and `manifests`
are required (no serde default), `mediaType` and `annotations` parse to
`None` when absent, unknown fields are ignored. -/
def ImageIndex.fromJson (j : Json) : Except String ImageIndex := do
  let fields ← j.getObj
  let schema_version ← reqField fields "schemaVersion" >>= decodeU32
  let media_type ← optDecode decodeString (Json.lookup fields "mediaType")
  let manifests ← reqField fields "manifests" >>= decodeList Descriptor.fromJson
  let annotations ← optDecode decodeStringMap (Json.lookup fields "annotations")
  .ok { schema_version := schema_version, media_type := media_type,
        manifests := manifests, annotations := annotations }

/-- `ImageIndexBuilder` (derive_builder, owned; no struct-level default:
`schema_version` and `manifests` are required, `media_type` and
`annotations` carry a field-level `builder(default)`). -/
structure ImageIndexBuilder where
  schema_version : Option Int
  media_type : Option (Option String)
  manifests : Option (List Descriptor)
  annotations : Option (Option (List (String × String)))
deriving DecidableEq, Repr

/-- `ImageIndexBuilder::default()`: all fields unset. -/
def ImageIndexBuilder.default : ImageIndexBuilder :=
  { schema_version := none, media_type := none, manifests := none, annotations := none }

/-- `ImageIndexBuilder::build`: fails naming the first required field that
was never set; defaulted fields fall back to `None`. -/
def ImageIndexBuilder.build (b : ImageIndexBuilder) : Except OciSpecError ImageIndex :=
  match b.schema_version with
  | none => .error (.builder "schema_version")
  | some sv =>
      match b.manifests with
      | none => .error (.builder "manifests")
      | some ms =>
          .ok { schema_version := sv, media_type := b.media_type.getD none,
                manifests := ms, annotations := b.annotations.getD none }

theorem decodeU64_num (n : Int) (h1 : 0 ≤ n) (h2 : n < 2 ^ 64) :
    decodeU64 (Json.num n) = .ok n := by
  simp [decodeU64, h1, h2]
  exact lt_of_lt_of_le h2 (by norm_num)

theorem decodeU32_num (n : Int) (h1 : 0 ≤ n) (h2 : n < 2 ^ 32) :
    decodeU32 (Json.num n) = .ok n := by
  simp [decodeU32, h1, h2]
  exact lt_of_lt_of_le h2 (by norm_num)

theorem platform_roundtrip (p : Platform) :
    Platform.fromJson (Platform.toJson p) = .ok p := by
  obtain ⟨f1, f2, f3, f4, f5⟩ := p
  simp [Platform.toJson, Platform.fromJson, Json.getObj, reqField, decodeString]

theorem descriptor_roundtrip (d : Descriptor) (hd : d.wf = true) :
    Descriptor.fromJson (Descriptor.toJson d) = .ok d := by
  obtain ⟨f1, f2, size, f4, f5, f6⟩ := d
  simp only [Descriptor.wf, Bool.and_eq_true, decide_eq_true_eq] at hd
  simp [Descriptor.toJson, Descriptor.fromJson, Json.getObj, reqField, decodeString,
    decodeU64_num size hd.1 hd.2,
    optDecode_comp Platform.fromJson Platform.toJson f6
      (fun a => platform_roundtrip a) (fun a => rfl)]

theorem imageIndex_roundtrip (i : ImageIndex) (hi : i.wf = true) :
    ImageIndex.fromJson (ImageIndex.toJson i) = .ok i := by
  obtain ⟨sv, mt, manifests, ann⟩ := i
  simp only [ImageIndex.wf, Bool.and_eq_true, decide_eq_true_eq, List.all_eq_true] at hi
  simp [ImageIndex.toJson, ImageIndex.fromJson, Json.getObj, reqField, decodeString,
    decodeU32_num sv hi.1.1 hi.1.2, decodeList,
    decodeElems_map Descriptor.fromJson Descriptor.toJson manifests
      (fun a ha => descriptor_roundtrip a (hi.2 a ha))]

/-! ## Text layer: deterministic rendering of JSON values (serde_json's
compact and pretty writers). The byte-level half of the round-trip law is
stated through these renderers: a byte sequence produced by encode is the
deterministic rendering of the encoded JSON tree. -/

/-- Lowercase hex digit. -/
def hexDigit (n : Nat) : Char :=
  if n < 10 then Char.ofNat (48 + n) else Char.ofNat (87 + n)

/-- serde_json string escaping: quote, backslash and control characters are
escaped (short forms for \n, \r, \t, backspace and form feed, `\u00XX` for
the rest); all other characters are emitted verbatim. -/
def escapeChar (c : Char) : String :=
  if c = '"' then "\\\""
  else if c = '\\' then "\\\\"
  else if c = '\n' then "\\n"
  else if c = '\r' then "\\r"
  else if c = '\t' then "\\t"
  else if c.toNat = 8 then "\\b"
  else if c.toNat = 12 then "\\f"
  else if c.toNat < 32 then
    "\\u00" ++ String.singleton (hexDigit (c.toNat / 16))
      ++ String.singleton (hexDigit (c.toNat % 16))
  else String.singleton c

/-- Render a JSON string literal with its quotes. -/
def renderJString (s : String) : String :=
  "\"" ++ String.join (s.toList.map escapeChar) ++ "\""

/-- A run of spaces. -/
def spaces (n : Nat) : String :=
  String.mk (List.replicate n ' ')

mutual

/-- Compact (no insignificant whitespace) rendering, as serde_json
`to_string`. -/
def Json.renderCompact : Json → String
  | .null => "null"
  | .bool b => if b then "true" else "false"
  | .num n => toString n
  | .str s => renderJString s
  | .arr elems => "[" ++ renderArrCompact elems ++ "]"
  | .obj fields => "\x7b" ++ renderObjCompact fields ++ "\x7d"

/-- Comma-separated compact rendering of array elements. -/
def renderArrCompact : List Json → String
  | [] => ""
  | [j] => Json.renderCompact j
  | j :: k :: rest => Json.renderCompact j ++ "," ++ renderArrCompact (k :: rest)

/-- Comma-separated compact rendering of object fields. -/
def renderObjCompact : List (String × Json) → String
  | [] => ""
  | [kv] => renderJString kv.1 ++ ":" ++ Json.renderCompact kv.2
  | kv :: p :: rest =>
      renderJString kv.1 ++ ":" ++ Json.renderCompact kv.2 ++ ","
        ++ renderObjCompact (p :: rest)

end

mutual

/-- Pretty rendering at the given nesting depth, as serde_json
`to_string_pretty` (two-space indentation, `": "` separators, newline-broken
brackets, empty containers rendered inline). -/
def Json.renderPretty (depth : Nat) : Json → String
  | .null => "null"
  | .bool b => if b then "true" else "false"
  | .num n => toString n
  | .str s => renderJString s
  | .arr [] => "[]"
  | .arr (j :: rest) =>
      "[\n" ++ renderArrPretty (depth + 1) j rest ++ "\n" ++ spaces (2 * depth) ++ "]"
  | .obj [] => "\x7b\x7d"
  | .obj ((k, v) :: rest) =>
      "\x7b\n" ++ renderObjPretty (depth + 1) k v rest ++ "\n" ++ spaces (2 * depth)
        ++ "\x7d"
termination_by j => sizeOf j

/-- Newline-separated pretty rendering of array elements. -/
def renderArrPretty (depth : Nat) (j : Json) (rest : List Json) : String :=
  match rest with
  | [] => spaces (2 * depth) ++ Json.renderPretty depth j
  | k :: rest2 =>
      spaces (2 * depth) ++ Json.renderPretty depth j ++ ",\n"
        ++ renderArrPretty depth k rest2
termination_by 1 + sizeOf j + sizeOf rest

/-- Newline-separated pretty rendering of object fields. -/
def renderObjPretty (depth : Nat) (k : String) (v : Json) (rest : List (String × Json)) :
    String :=
  match rest with
  | [] => spaces (2 * depth) ++ renderJString k ++ ": " ++ Json.renderPretty depth v
  | (k2, v2) :: rest2 =>
      spaces (2 * depth) ++ renderJString k ++ ": " ++ Json.renderPretty depth v
        ++ ",\n" ++ renderObjPretty depth k2 v2 rest2
termination_by 1 + sizeOf v + sizeOf rest

end

/-- If decoding the encoding of `x` succeeds with `y`, then re-encoding `y`
reproduces the original bytes exactly, in both output modes (rendering is a
deterministic function of the encoded tree). -/
theorem encode_bytes_idem {α : Type} (toJ : α → Json) (fromJ : Json → Except String α)
    (x y : α) (hx : fromJ (toJ x) = .ok x) (h : fromJ (toJ x) = .ok y) :
    Json.renderCompact (toJ y) = Json.renderCompact (toJ x) ∧
      Json.renderPretty 0 (toJ y) = Json.renderPretty 0 (toJ x) := by
  rw [hx] at h
  injection h with h2
  subst h2
  exact ⟨rfl, rfl⟩

/-! ## Claim theorems -/

/-- **C1.** Round-trip law. For every valid entity of every catalog type
(`ImageIndex`, `ErrorResponse`, `ErrorInfo`, `Hooks`, `Hook`, `Root`,
`Mount`, `Solaris` and its sub-blocks), decoding the encoding yields the
entity back ("valid" meaning the numeric fields fit their machine-integer
types, which Rust's types guarantee); and whenever a byte sequence was
produced by encode (it is the deterministic rendering, compact or pretty, of
an encoded tree), decoding it and re-encoding reproduces those bytes
byte-identically in both modes. -/
theorem claim_C1 :
    (∀ x : Root, Root.fromJson (Root.toJson x) = .ok x) ∧
    (∀ x : Mount, Mount.fromJson (Mount.toJson x) = .ok x) ∧
    (∀ x : SolarisCappedCPU, SolarisCappedCPU.fromJson (SolarisCappedCPU.toJson x) = .ok x) ∧
    (∀ x : SolarisCappedMemory,
      SolarisCappedMemory.fromJson (SolarisCappedMemory.toJson x) = .ok x) ∧
    (∀ x : SolarisAnet, SolarisAnet.fromJson (SolarisAnet.toJson x) = .ok x) ∧
    (∀ x : Solaris, Solaris.fromJson (Solaris.toJson x) = .ok x) ∧
    (∀ x : Hook, Hook.wf x = true → Hook.fromJson (Hook.toJson x) = .ok x) ∧
    (∀ x : Hooks, Hooks.wf x = true → Hooks.fromJson (Hooks.toJson x) = .ok x) ∧
    (∀ x : ErrorInfo, ErrorInfo.fromJson (ErrorInfo.toJson x) = .ok x) ∧
    (∀ x : ErrorResponse, ErrorResponse.fromJson (ErrorResponse.toJson x) = .ok x) ∧
    (∀ x : ImageIndex, ImageIndex.wf x = true →
      ImageIndex.fromJson (ImageIndex.toJson x) = .ok x) ∧
    (∀ x y : Root, Root.fromJson (Root.toJson x) = .ok y →
      Json.renderCompact (Root.toJson y) = Json.renderCompact (Root.toJson x) ∧
      Json.renderPretty 0 (Root.toJson y) = Json.renderPretty 0 (Root.toJson x)) ∧
    (∀ x y : Mount, Mount.fromJson (Mount.toJson x) = .ok y →
      Json.renderCompact (Mount.toJson y) = Json.renderCompact (Mount.toJson x) ∧
      Json.renderPretty 0 (Mount.toJson y) = Json.renderPretty 0 (Mount.toJson x)) ∧
    (∀ x y : Solaris, Solaris.fromJson (Solaris.toJson x) = .ok y →
      Json.renderCompact (Solaris.toJson y) = Json.renderCompact (Solaris.toJson x) ∧
      Json.renderPretty 0 (Solaris.toJson y) = Json.renderPretty 0 (Solaris.toJson x)) ∧
    (∀ x y : Hook, Hook.wf x = true → Hook.fromJson (Hook.toJson x) = .ok y →
      Json.renderCompact (Hook.toJson y) = Json.renderCompact (Hook.toJson x) ∧
      Json.renderPretty 0 (Hook.toJson y) = Json.renderPretty 0 (Hook.toJson x)) ∧
    (∀ x y : Hooks, Hooks.wf x = true → Hooks.fromJson (Hooks.toJson x) = .ok y →
      Json.renderCompact (Hooks.toJson y) = Json.renderCompact (Hooks.toJson x) ∧
      Json.renderPretty 0 (Hooks.toJson y) = Json.renderPretty 0 (Hooks.toJson x)) ∧
    (∀ x y : ErrorInfo, ErrorInfo.fromJson (ErrorInfo.toJson x) = .ok y →
      Json.renderCompact (ErrorInfo.toJson y) = Json.renderCompact (ErrorInfo.toJson x) ∧
      Json.renderPretty 0 (ErrorInfo.toJson y) = Json.renderPretty 0 (ErrorInfo.toJson x)) ∧
    (∀ x y : ErrorResponse, ErrorResponse.fromJson (ErrorResponse.toJson x) = .ok y →
      Json.renderCompact (ErrorResponse.toJson y)
        = Json.renderCompact (ErrorResponse.toJson x) ∧
      Json.renderPretty 0 (ErrorResponse.toJson y)
        = Json.renderPretty 0 (ErrorResponse.toJson x)) ∧
    (∀ x y : ImageIndex, ImageIndex.wf x = true →
      ImageIndex.fromJson (ImageIndex.toJson x) = .ok y →
      Json.renderCompact (ImageIndex.toJson y) = Json.renderCompact (ImageIndex.toJson x) ∧
      Json.renderPretty 0 (ImageIndex.toJson y)
        = Json.renderPretty 0 (ImageIndex.toJson x)) :=
  ⟨root_roundtrip, mount_roundtrip, cappedCPU_roundtrip, cappedMemory_roundtrip,
   anet_roundtrip, solaris_roundtrip, hook_roundtrip, hooks_roundtrip,
   errorInfo_roundtrip, errorResponse_roundtrip, imageIndex_roundtrip,
   fun x y h => encode_bytes_idem Root.toJson Root.fromJson x y (root_roundtrip x) h,
   fun x y h => encode_bytes_idem Mount.toJson Mount.fromJson x y (mount_roundtrip x) h,
   fun x y h =>
     encode_bytes_idem Solaris.toJson Solaris.fromJson x y (solaris_roundtrip x) h,
   fun x y hw h =>
     encode_bytes_idem Hook.toJson Hook.fromJson x y (hook_roundtrip x hw) h,
   fun x y hw h =>
     encode_bytes_idem Hooks.toJson Hooks.fromJson x y (hooks_roundtrip x hw) h,
   fun x y h =>
     encode_bytes_idem ErrorInfo.toJson ErrorInfo.fromJson x y (errorInfo_roundtrip x) h,
   fun x y h =>
     encode_bytes_idem ErrorResponse.toJson ErrorResponse.fromJson x y
       (errorResponse_roundtrip x) h,
   fun x y hw h =>
     encode_bytes_idem ImageIndex.toJson ImageIndex.fromJson x y
       (imageIndex_roundtrip x hw) h⟩

/-- A concrete hook used to witness the hypothesis-bearing clauses of C1. -/
def hook_w : Hook :=
  { path := "/bin/sh", args := some ["sh", "-c", "ls"], env := some ["A=1"],
    timeout := some 30 }

/-- A concrete hooks table used to witness the hypothesis-bearing clauses of
C1. -/
def hooks_w : Hooks :=
  { prestart := some [hook_w], create_runtime := some [], create_container := none,
    start_container := none, poststart := some [hook_w, hook_w], poststop := none }

/-- A concrete image index (two platform manifests, as in the repository's
test data) used to witness the hypothesis-bearing clauses of C1. -/
def index_w : ImageIndex :=
  { schema_version := 2,
    media_type := none,
    manifests :=
      [{ media_type := "application/vnd.oci.image.manifest.v1+json",
         digest := "sha256:e692418e4cbaf90ca69d05a66403747baa33ee08806650b51fab815ad7fc331f",
         size := 7143, urls := none, annotations := none,
         platform := some { architecture := "ppc64le", os := "linux", os_version := none,
                            os_features := none, variant := none } },
       { media_type := "application/vnd.oci.image.manifest.v1+json",
         digest := "sha256:5b0bcabd1ed22e9fb1310cf6c2dec7cdef19f0ad69efa1f392e94a4333501270",
         size := 7682, urls := none, annotations := none,
         platform := some { architecture := "amd64", os := "linux", os_version := none,
                            os_features := none, variant := none } }],
    annotations := none }

/-- Witness for C1: the hypothesis-bearing clauses applied at concrete
well-formed entities. -/
theorem claim_C1_witness :
    Hook.fromJson (Hook.toJson hook_w) = .ok hook_w ∧
    Hooks.fromJson (Hooks.toJson hooks_w) = .ok hooks_w ∧
    ImageIndex.fromJson (ImageIndex.toJson index_w) = .ok index_w ∧
    (Json.renderCompact (ImageIndex.toJson index_w)
      = Json.renderCompact (ImageIndex.toJson index_w) ∧
     Json.renderPretty 0 (ImageIndex.toJson index_w)
      = Json.renderPretty 0 (ImageIndex.toJson index_w)) :=
  ⟨claim_C1.2.2.2.2.2.2.1 hook_w (by decide),
   claim_C1.2.2.2.2.2.2.2.1 hooks_w (by decide),
   claim_C1.2.2.2.2.2.2.2.2.2.2.1 index_w (by decide),
   claim_C1.2.2.2.2.2.2.2.2.2.2.2.2.2.2.2.2.2.2 index_w index_w (by decide)
     (claim_C1.2.2.2.2.2.2.2.2.2.2.1 index_w (by decide))⟩

/-- **C2.** Default asymmetry for `Root`: the default constructor yields
`path = "rootfs"` and `readonly = Some(true)`, while decoding the document
with key `path` only (no `readonly` key) yields `readonly = None`; in
general, whenever the input object has no `readonly` key, any successfully
decoded `Root` has `readonly = None` — the construction-time default is
never applied on deserialization. -/
theorem claim_C2 :
    Root.default = { path := "rootfs", readonly := some true } ∧
    Root.fromJson (Json.obj [("path", Json.str "rootfs")])
      = .ok { path := "rootfs", readonly := none } ∧
    (∀ (fields : List (String × Json)) (r : Root),
      Json.lookup fields "readonly" = none →
      Root.fromJson (Json.obj fields) = .ok r → r.readonly = none) := by
  refine ⟨rfl, rfl, ?_⟩
  intro fields r hl h
  simp only [Root.fromJson, Json.getObj, except_bind_ok, hl, optDecode_none] at h
  cases hpath : Json.lookup fields "path" with
  | none =>
      rw [hpath] at h
      simp only [decodeWithDefault, except_bind_ok, except_pure_eq] at h
      injection h with h2
      rw [← h2]
  | some v =>
      rw [hpath] at h
      simp only [decodeWithDefault] at h
      cases hv : decodeString v with
      | error e =>
          rw [hv] at h
          exact absurd h (by simp)
      | ok p =>
          rw [hv] at h
          simp only [except_bind_ok, except_pure_eq] at h
          injection h with h2
          rw [← h2]

/-- Witness for C2: the general no-`readonly`-key clause applied at the
concrete one-field document. -/
theorem claim_C2_witness :
    (Root.mk "rootfs" none).readonly = none :=
  claim_C2.2.2 [("path", Json.str "rootfs")] (Root.mk "rootfs" none) rfl claim_C2.2.1

/-- Did this fallible operation succeed? -/
def isOkE {ε α : Type} (e : Except ε α) : Bool :=
  match e with
  | .ok _ => true
  | .error _ => false

/-- **C3, counterexample.** The claim lists `Root.path` among the required
fields whose absence is a parse failure; in the code `Root.path` carries
`#[serde(default)]`, so decoding the empty object succeeds with the default
(empty) path instead of failing. -/
theorem claim_C3_cex :
    Root.fromJson (Json.obj []) = .ok { path := "", readonly := none } := rfl

/-- **C3, amended.** Decoding a well-formed JSON object lacking a required
field (`ImageIndex.schema_version`, `ImageIndex.manifests`,
`ErrorResponse.errors`, `ErrorInfo.code`, `Hook.path`, `Mount.destination`)
is a parse failure naming the (wire) field — but `Root.path`, though not
optional, carries a deserialization default, so its absence succeeds with
the empty path; an absent optional field parses to no value; and an
unrecognized field on the input is ignored, not rejected. -/
theorem claim_C3 :
    ImageIndex.fromJson (Json.obj [("manifests", Json.arr [])])
      = .error "missing field schemaVersion" ∧
    ImageIndex.fromJson (Json.obj [("schemaVersion", Json.num 2)])
      = .error "missing field manifests" ∧
    ErrorResponse.fromJson (Json.obj []) = .error "missing field errors" ∧
    ErrorInfo.fromJson (Json.obj []) = .error "missing field code" ∧
    Hook.fromJson (Json.obj []) = .error "missing field path" ∧
    Mount.fromJson (Json.obj []) = .error "missing field destination" ∧
    Root.fromJson (Json.obj []) = .ok { path := "", readonly := none } ∧
    ImageIndex.fromJson (Json.obj [("schemaVersion", Json.num 2), ("manifests", Json.arr [])])
      = .ok { schema_version := 2, media_type := none, manifests := [],
              annotations := none } ∧
    Hook.fromJson (Json.obj [("path", Json.str "/bin/hook")])
      = .ok { path := "/bin/hook", args := none, env := none, timeout := none } ∧
    Root.fromJson (Json.obj [("path", Json.str "rootfs"), ("unknownKey", Json.num 1)])
      = .ok { path := "rootfs", readonly := none } ∧
    Mount.fromJson (Json.obj [("destination", Json.str "/data"), ("bogus", Json.null)])
      = .ok { destination := "/data", typ := none, source := none, options := none } :=
  ⟨rfl, rfl, rfl, rfl, rfl, rfl, rfl, rfl, rfl, rfl, rfl⟩

/-- **C4.** `ErrorCode` wire mapping: `TooManyRequests` encodes to the
irregular literal `TOOMANYREQUESTS` and decodes back; every other variant
maps to the mechanical SCREAMING_SNAKE_CASE form of its name; decoding is
the exact inverse of encoding, and any string outside the closed wire set is
a decode failure (decode succeeds only on encoded literals). -/
theorem claim_C4 :
    ErrorCode.toWire ErrorCode.TooManyRequests = "TOOMANYREQUESTS" ∧
    ErrorCode.toJson ErrorCode.TooManyRequests = Json.str "TOOMANYREQUESTS" ∧
    ErrorCode.fromWire "TOOMANYREQUESTS" = .ok ErrorCode.TooManyRequests ∧
    (∀ c : ErrorCode, c ≠ ErrorCode.TooManyRequests →
      ErrorCode.toWire c = screamingSnake (ErrorCode.variantName c)) ∧
    ErrorCode.toWire ErrorCode.TooManyRequests
      ≠ screamingSnake (ErrorCode.variantName ErrorCode.TooManyRequests) ∧
    (∀ c : ErrorCode, ErrorCode.fromWire (ErrorCode.toWire c) = .ok c) ∧
    (∀ (s : String) (c : ErrorCode), ErrorCode.fromWire s = .ok c →
      ErrorCode.toWire c = s) ∧
    ErrorCode.fromWire "TOO_MANY_REQUESTS"
      = .error ("unknown variant " ++ "TOO_MANY_REQUESTS") := by
  refine ⟨rfl, rfl, rfl, ?_, by decide, errorCode_fromWire_toWire, ?_, rfl⟩
  · intro c hc
    cases c <;> first | rfl | exact absurd rfl hc
  · intro s c h
    unfold ErrorCode.fromWire at h
    cases hl : assocLookup errorCodeWireTable s with
    | none =>
        rw [hl] at h
        exact absurd h (by simp)
    | some c2 =>
        rw [hl] at h
        simp only [] at h
        injection h with h2
        subst h2
        exact assocLookup_sound errorCodeWireTable ErrorCode.toWire (by decide) s c2 hl

/-- Witness for C4: the hypothesis-bearing clauses applied concretely (the
mechanical SCREAMING_SNAKE_CASE rule at `BlobUploadInvalid`, the inverse
rule at the literal `DENIED`). -/
theorem claim_C4_witness :
    ErrorCode.toWire ErrorCode.BlobUploadInvalid
      = screamingSnake (ErrorCode.variantName ErrorCode.BlobUploadInvalid) ∧
    ErrorCode.toWire ErrorCode.Denied = "DENIED" :=
  ⟨claim_C4.2.2.2.1 ErrorCode.BlobUploadInvalid (by decide),
   claim_C4.2.2.2.2.2.2.1 "DENIED" ErrorCode.Denied rfl⟩

/-- **C5.** Required-field enforcement in the distribution builders:
`ErrorResponseBuilder::default().build()` fails naming `errors`; setting
`errors` to the empty vector succeeds with an empty error list; in general
these builds succeed exactly when every field lacking a declared default was
set (`errors` for `ErrorResponse`, `code` for `ErrorInfo`,
`schema_version` and `manifests` for `ImageIndex`). -/
theorem claim_C5 :
    ErrorResponseBuilder.build ErrorResponseBuilder.default
      = .error (.builder "errors") ∧
    ErrorResponseBuilder.build { errors := some [] } = .ok { errors := [] } ∧
    (∀ b : ErrorResponseBuilder, isOkE (ErrorResponseBuilder.build b) = b.errors.isSome) ∧
    (∀ b : ErrorInfoBuilder, isOkE (ErrorInfoBuilder.build b) = b.code.isSome) ∧
    (∀ b : ImageIndexBuilder,
      isOkE (ImageIndexBuilder.build b)
        = (b.schema_version.isSome && b.manifests.isSome)) := by
  refine ⟨rfl, rfl, ?_, ?_, ?_⟩
  · intro b
    obtain ⟨e⟩ := b
    cases e <;> rfl
  · intro b
    obtain ⟨c, m, d⟩ := b
    cases c <;> rfl
  · intro b
    obtain ⟨sv, mt, ms, ann⟩ := b
    cases sv <;> cases ms <;> rfl

/-- **C6, counterexample.** The claim says no operation yields a `Hook` with
a non-positive timeout; but decoding a document with `"timeout": 0` and
building with timeout 0 both succeed and keep the value. -/
theorem claim_C6_cex :
    Hook.fromJson (Json.obj [("path", Json.str "/bin/sh"), ("timeout", Json.num 0)])
      = .ok { path := "/bin/sh", args := none, env := none, timeout := some 0 } ∧
    HookBuilder.build { HookBuilder.default with timeout := some (some 0) }
      = .ok { path := "", args := none, env := none, timeout := some 0 } ∧
    ¬((0 : Int) > 0) :=
  ⟨rfl, rfl, by decide⟩

/-- **C6, amended.** The strict positivity of `Hook.timeout` is documented
but not enforced: decoding preserves any in-range timeout value verbatim
(including zero and negative values), and the builder stores whatever
timeout it is given. -/
theorem claim_C6 :
    (∀ (p : String) (t : Int), -(2 ^ 63) ≤ t → t < 2 ^ 63 →
      Hook.fromJson (Json.obj [("path", Json.str p), ("timeout", Json.num t)])
        = .ok { path := p, args := none, env := none, timeout := some t }) ∧
    (∀ (b : HookBuilder) (t : Int), b.timeout = some (some t) →
      ∃ h : Hook, HookBuilder.build b = .ok h ∧ h.timeout = some t) := by
  constructor
  · intro p t h1 h2
    simp [Hook.fromJson, Json.getObj, reqField, decodeString,
      optDecode_some_i64 t h1 h2]
  · intro b t hb
    exact ⟨_, rfl, by simp [hb]⟩

/-- Witness for C6: the amended clauses applied at timeout zero. -/
theorem claim_C6_witness :
    Hook.fromJson (Json.obj [("path", Json.str "/bin/stop"), ("timeout", Json.num 0)])
      = .ok { path := "/bin/stop", args := none, env := none, timeout := some 0 } ∧
    (∃ h : Hook,
      HookBuilder.build { HookBuilder.default with timeout := some (some 0) } = .ok h ∧
      h.timeout = some 0) :=
  ⟨claim_C6.1 "/bin/stop" 0 (by decide) (by decide),
   claim_C6.2 { HookBuilder.default with timeout := some (some 0) } 0 rfl⟩

/-- **C7, counterexample.** The claim says neither builder construction nor
deserialization yields an `ImageIndex` whose `schema_version` differs from
2; both accept 3. -/
theorem claim_C7_cex :
    ImageIndex.fromJson
        (Json.obj [("schemaVersion", Json.num 3), ("manifests", Json.arr [])])
      = .ok { schema_version := 3, media_type := none, manifests := [],
              annotations := none } ∧
    ImageIndexBuilder.build
        { ImageIndexBuilder.default with schema_version := some 3, manifests := some [] }
      = .ok { schema_version := 3, media_type := none, manifests := [],
              annotations := none } ∧
    (3 : Int) ≠ SCHEMA_VERSION :=
  ⟨rfl, rfl, by decide⟩

/-- **C7, amended.** The default constructor fixes
`schema_version = SCHEMA_VERSION = 2`, but the constant is not otherwise
enforced: deserialization accepts any u32 value, and the builder stores
whatever `schema_version` it is given. -/
theorem claim_C7 :
    ImageIndex.default.schema_version = SCHEMA_VERSION ∧
    SCHEMA_VERSION = 2 ∧
    (∀ n : Int, 0 ≤ n → n < 2 ^ 32 →
      ImageIndex.fromJson
          (Json.obj [("schemaVersion", Json.num n), ("manifests", Json.arr [])])
        = .ok { schema_version := n, media_type := none, manifests := [],
                annotations := none }) ∧
    (∀ (b : ImageIndexBuilder) (n : Int) (ms : List Descriptor),
      b.schema_version = some n → b.manifests = some ms →
      ∃ i : ImageIndex, ImageIndexBuilder.build b = .ok i ∧ i.schema_version = n) := by
  refine ⟨rfl, rfl, ?_, ?_⟩
  · intro n h1 h2
    simp [ImageIndex.fromJson, Json.getObj, reqField, decodeU32_num n h1 h2,
      decodeList, decodeElems]
  · intro b n ms hn hm
    refine ⟨{ schema_version := n, media_type := b.media_type.getD none,
              manifests := ms, annotations := b.annotations.getD none }, ?_, rfl⟩
    simp [ImageIndexBuilder.build, hn, hm]

/-- Witness for C7: the amended clauses applied at schema version 3. -/
theorem claim_C7_witness :
    ImageIndex.fromJson
        (Json.obj [("schemaVersion", Json.num 3), ("manifests", Json.arr [])])
      = .ok { schema_version := 3, media_type := none, manifests := [],
              annotations := none } ∧
    (∃ i : ImageIndex,
      ImageIndexBuilder.build
          { ImageIndexBuilder.default with
            schema_version := some 3
            manifests := some [] }
        = .ok i ∧ i.schema_version = 3) :=
  ⟨claim_C7.2.2.1 3 (by decide) (by decide),
   claim_C7.2.2.2
     { ImageIndexBuilder.default with schema_version := some 3, manifests := some [] }
     3 [] rfl rfl⟩

theorem hasKey_obj (fields : List (String × Json)) (key : String) :
    (Json.obj fields).hasKey key = fields.any (fun kv => kv.1 == key) := rfl

theorem any_optJField (k key : String) (v : Option Json) :
    (optJField k v).any (fun kv => kv.1 == key) = (v.isSome && (k == key)) := by
  cases v <;> simp [optJField]

/-- **C8.** Omission rule, for every entity and every optional field of the
catalog: an optional field that is absent contributes no key at all to the
encoded object (never null, never a zero value), and a present optional
field is emitted under its mapped wire name (`media_type` as `mediaType`,
`Mount.typ` as `type`, `Solaris.capped_cpu` as `cappedCPU`, camelCase names
for `Hooks`, `Solaris`, `SolarisAnet`, `Platform` and `Descriptor` fields);
required fields are always emitted, and the Rust snake_case identifiers of
renamed fields never appear as keys. -/
theorem claim_C8 :
    (∀ i : ImageIndex,
      (ImageIndex.toJson i).hasKey "mediaType" = i.media_type.isSome ∧
      (ImageIndex.toJson i).hasKey "annotations" = i.annotations.isSome ∧
      (ImageIndex.toJson i).hasKey "media_type" = false ∧
      (ImageIndex.toJson i).hasKey "schemaVersion" = true ∧
      (ImageIndex.toJson i).hasKey "manifests" = true) ∧
    (∀ m : Mount,
      (Mount.toJson m).hasKey "type" = m.typ.isSome ∧
      (Mount.toJson m).hasKey "source" = m.source.isSome ∧
      (Mount.toJson m).hasKey "options" = m.options.isSome ∧
      (Mount.toJson m).hasKey "typ" = false ∧
      (Mount.toJson m).hasKey "destination" = true) ∧
    (∀ s : Solaris,
      (Solaris.toJson s).hasKey "milestone" = s.milestone.isSome ∧
      (Solaris.toJson s).hasKey "limitpriv" = s.limitpriv.isSome ∧
      (Solaris.toJson s).hasKey "maxShmMemory" = s.max_shm_memory.isSome ∧
      (Solaris.toJson s).hasKey "max_shm_memory" = false ∧
      (Solaris.toJson s).hasKey "anet" = s.anet.isSome ∧
      (Solaris.toJson s).hasKey "cappedCPU" = s.capped_cpu.isSome ∧
      (Solaris.toJson s).hasKey "capped_cpu" = false ∧
      (Solaris.toJson s).hasKey "cappedMemory" = s.capped_memory.isSome ∧
      (Solaris.toJson s).hasKey "capped_memory" = false) ∧
    (∀ r : Root,
      (Root.toJson r).hasKey "readonly" = r.readonly.isSome ∧
      (Root.toJson r).hasKey "path" = true) ∧
    (∀ h : Hook,
      (Hook.toJson h).hasKey "args" = h.args.isSome ∧
      (Hook.toJson h).hasKey "env" = h.env.isSome ∧
      (Hook.toJson h).hasKey "timeout" = h.timeout.isSome ∧
      (Hook.toJson h).hasKey "path" = true) ∧
    (∀ h : Hooks,
      (Hooks.toJson h).hasKey "prestart" = h.prestart.isSome ∧
      (Hooks.toJson h).hasKey "createRuntime" = h.create_runtime.isSome ∧
      (Hooks.toJson h).hasKey "createContainer" = h.create_container.isSome ∧
      (Hooks.toJson h).hasKey "startContainer" = h.start_container.isSome ∧
      (Hooks.toJson h).hasKey "poststart" = h.poststart.isSome ∧
      (Hooks.toJson h).hasKey "poststop" = h.poststop.isSome ∧
      (Hooks.toJson h).hasKey "create_runtime" = false ∧
      (Hooks.toJson h).hasKey "create_container" = false ∧
      (Hooks.toJson h).hasKey "start_container" = false) ∧
    (∀ e : ErrorInfo,
      (ErrorInfo.toJson e).hasKey "message" = e.message.isSome ∧
      (ErrorInfo.toJson e).hasKey "detail" = e.detail.isSome ∧
      (ErrorInfo.toJson e).hasKey "code" = true) ∧
    (∀ r : ErrorResponse, (ErrorResponse.toJson r).hasKey "errors" = true) ∧
    (∀ a : SolarisAnet,
      (SolarisAnet.toJson a).hasKey "linkname" = a.linkname.isSome ∧
      (SolarisAnet.toJson a).hasKey "lowerLink" = a.lower_link.isSome ∧
      (SolarisAnet.toJson a).hasKey "allowedAddress" = a.allowed_address.isSome ∧
      (SolarisAnet.toJson a).hasKey "configureAllowedAddress"
        = a.configure_allowed_address.isSome ∧
      (SolarisAnet.toJson a).hasKey "defrouter" = a.defrouter.isSome ∧
      (SolarisAnet.toJson a).hasKey "linkProtection" = a.link_protection.isSome ∧
      (SolarisAnet.toJson a).hasKey "macAddress" = a.mac_address.isSome ∧
      (SolarisAnet.toJson a).hasKey "lower_link" = false ∧
      (SolarisAnet.toJson a).hasKey "mac_address" = false) ∧
    (∀ c : SolarisCappedCPU,
      (SolarisCappedCPU.toJson c).hasKey "ncpus" = c.ncpus.isSome) ∧
    (∀ m : SolarisCappedMemory,
      (SolarisCappedMemory.toJson m).hasKey "physical" = m.physical.isSome ∧
      (SolarisCappedMemory.toJson m).hasKey "swap" = m.swap.isSome) ∧
    (∀ p : Platform,
      (Platform.toJson p).hasKey "osVersion" = p.os_version.isSome ∧
      (Platform.toJson p).hasKey "osFeatures" = p.os_features.isSome ∧
      (Platform.toJson p).hasKey "variant" = p.variant.isSome ∧
      (Platform.toJson p).hasKey "os_version" = false ∧
      (Platform.toJson p).hasKey "architecture" = true ∧
      (Platform.toJson p).hasKey "os" = true) ∧
    (∀ d : Descriptor,
      (Descriptor.toJson d).hasKey "urls" = d.urls.isSome ∧
      (Descriptor.toJson d).hasKey "annotations" = d.annotations.isSome ∧
      (Descriptor.toJson d).hasKey "platform" = d.platform.isSome ∧
      (Descriptor.toJson d).hasKey "media_type" = false ∧
      (Descriptor.toJson d).hasKey "mediaType" = true ∧
      (Descriptor.toJson d).hasKey "digest" = true ∧
      (Descriptor.toJson d).hasKey "size" = true) := by
  refine ⟨?_, ?_, ?_, ?_, ?_, ?_, ?_, ?_, ?_, ?_, ?_, ?_, ?_⟩
  · intro i
    obtain ⟨sv, mt, ms, ann⟩ := i
    simp [ImageIndex.toJson, hasKey_obj, List.any_append, any_optJField]
  · intro m
    obtain ⟨d, t, s, o⟩ := m
    simp [Mount.toJson, hasKey_obj, List.any_append, any_optJField]
  · intro s
    obtain ⟨f1, f2, f3, f4, f5, f6⟩ := s
    simp [Solaris.toJson, hasKey_obj, List.any_append, any_optJField]
  · intro r
    obtain ⟨p, ro⟩ := r
    simp [Root.toJson, hasKey_obj, List.any_append, any_optJField]
  · intro h
    obtain ⟨p, a, e, t⟩ := h
    simp [Hook.toJson, hasKey_obj, List.any_append, any_optJField]
  · intro h
    obtain ⟨o1, o2, o3, o4, o5, o6⟩ := h
    simp [Hooks.toJson, hasKey_obj, List.any_append, any_optJField]
  · intro e
    obtain ⟨c, m, d⟩ := e
    simp [ErrorInfo.toJson, hasKey_obj, List.any_append, any_optJField]
  · intro r
    obtain ⟨es⟩ := r
    simp [ErrorResponse.toJson, hasKey_obj]
  · intro a
    obtain ⟨f1, f2, f3, f4, f5, f6, f7⟩ := a
    simp [SolarisAnet.toJson, hasKey_obj, List.any_append, any_optJField]
  · intro c
    obtain ⟨n⟩ := c
    simp [SolarisCappedCPU.toJson, hasKey_obj, List.any_append, any_optJField]
  · intro m
    obtain ⟨ph, sw⟩ := m
    simp [SolarisCappedMemory.toJson, hasKey_obj, List.any_append, any_optJField]
  · intro p
    obtain ⟨f1, f2, f3, f4, f5⟩ := p
    simp [Platform.toJson, hasKey_obj, List.any_append, any_optJField]
  · intro d
    obtain ⟨f1, f2, f3, f4, f5, f6⟩ := d
    simp [Descriptor.toJson, hasKey_obj, List.any_append, any_optJField]

/-- **C9.** `get_default_mounts` returns the fixed ordered sequence of
exactly seven mounts with destinations `/proc`, `/dev`, `/dev/pts`,
`/dev/shm`, `/dev/mqueue`, `/sys`, `/sys/fs/cgroup` (with their fixed types,
sources and option lists); as a pure constant function every call returns
this same freshly constructed value. -/
theorem claim_C9 :
    get_default_mounts.map Mount.destination
      = ["/proc", "/dev", "/dev/pts", "/dev/shm", "/dev/mqueue", "/sys",
         "/sys/fs/cgroup"] ∧
    get_default_mounts.map Mount.typ
      = [some "proc", some "tmpfs", some "devpts", some "tmpfs", some "mqueue",
         some "sysfs", some "cgroup"] ∧
    get_default_mounts.map Mount.source
      = [some "proc", some "tmpfs", some "devpts", some "shm", some "mqueue",
         some "sysfs", some "cgroup"] ∧
    get_default_mounts.map Mount.options
      = [none,
         some ["nosuid", "strictatime", "mode=755", "size=65536k"],
         some ["nosuid", "noexec", "newinstance", "ptmxmode=0666", "mode=0620", "gid=5"],
         some ["nosuid", "noexec", "nodev", "mode=1777", "size=65536k"],
         some ["nosuid", "noexec", "nodev"],
         some ["nosuid", "noexec", "nodev", "ro"],
         some ["nosuid", "noexec", "nodev", "relatime", "ro"]] ∧
    get_default_mounts.length = 7 :=
  ⟨rfl, rfl, rfl, rfl, rfl⟩

/-- **C10.** The runtime-configuration builders (`Hooks`, `Hook`, `Root`,
`Mount`, `Solaris` and its sub-blocks) are declared with all-field defaults,
so `build()` always succeeds even when no field was ever set; in particular
`HookBuilder::default().build()` yields the `Hook` with the empty path and
`args`, `env`, `timeout` absent — the absolute-path requirement is not
enforced at construction. -/
theorem claim_C10 :
    HookBuilder.build HookBuilder.default = .ok Hook.default ∧
    Hook.default = { path := "", args := none, env := none, timeout := none } ∧
    (∀ b : HookBuilder, isOkE (HookBuilder.build b) = true) ∧
    (∀ b : HooksBuilder, isOkE (HooksBuilder.build b) = true) ∧
    (∀ b : RootBuilder, isOkE (RootBuilder.build b) = true) ∧
    (∀ b : MountBuilder, isOkE (MountBuilder.build b) = true) ∧
    (∀ b : SolarisBuilder, isOkE (SolarisBuilder.build b) = true) ∧
    (∀ b : SolarisAnetBuilder, isOkE (SolarisAnetBuilder.build b) = true) ∧
    (∀ b : SolarisCappedCPUBuilder, isOkE (SolarisCappedCPUBuilder.build b) = true) ∧
    (∀ b : SolarisCappedMemoryBuilder, isOkE (SolarisCappedMemoryBuilder.build b) = true) :=
  ⟨rfl, rfl, fun _ => rfl, fun _ => rfl, fun _ => rfl, fun _ => rfl, fun _ => rfl,
   fun _ => rfl, fun _ => rfl, fun _ => rfl⟩

end OciSpec
